/-
Verification of the CCS811 air-quality sensor driver (src/main.cpp).

The driver talks to the sensor over I2C.  We model the bus shallowly: a
`Bus` carries the byte stream the device will return on successive reads
(`script`) and a log of every transaction performed (`trace`).  Both
i2c.write and i2c.read in the source return an int status; in this model
the transport itself always succeeds (status 0), since all properties
under study concern the protocol logic, not transport failures; the
source's checks of the return codes are nevertheless kept.  `die` (which
prints a diagnostic and exits the process) is modelled as an `Except`
error carrying the diagnostic message and the bus state at the moment of
death.  Bytes are naturals; `char` on the ARM targets of mbed is an
unsigned 8-bit type, so reads reduce modulo 256 and stores into `char`
truncate modulo 256.
-/
import Mathlib

/-- Sensor I2C address, pre-shifted for the mbed API (`0x5A << 1`). -/
def AIR_ADDR : Nat := 0x5A <<< 1

/-- Status register address. -/
def AIR_STATUS_REG : Nat := 0x00

/-- Mask for the error bit of the status register. -/
def AIR_STATUS_ERROR_MASK : Nat := 0x01

/-- Mask for the data-ready bit of the status register. -/
def AIR_STATUS_DATA_READY_MASK : Nat := 0x08

/-- Mask the source uses for the app-valid field of the status register. -/
def AIR_STATUS_APP_VALID_MASK : Nat := 0x16

/-- Mask for the firmware-mode bit of the status register. -/
def AIR_STATUS_FW_MODE_MASK : Nat := 0x80

/-- Firmware mode: boot loader. -/
def AIR_STATUS_FW_MODE_BOOT : Nat := 0

/-- Firmware mode: application. -/
def AIR_STATUS_FW_MODE_APP : Nat := 1

/-- Mode register address. -/
def AIR_MODE_REG : Nat := 0x01

/-- Mask for the drive-mode field (bits 4 to 6) of the mode register. -/
def AIR_MODE_DRIVE_MODE_MASK : Nat := 0x70

/-- Drive mode: idle. -/
def AIR_MODE_IDLE : Nat := 0x00

/-- Drive mode: one measurement per second. -/
def AIR_MODE_1_SECOND : Nat := 0x01

/-- Error-ID register address. -/
def AIR_ERROR_ID_REG : Nat := 0xE0

/-- Error ID: write to an invalid register address. -/
def AIR_ERROR_ID_BAD_WRITE : Nat := 0x00

/-- Error ID: read from an invalid register address. -/
def AIR_ERROR_ID_BAD_READ : Nat := 0x01

/-- Error ID: invalid measurement drive mode. -/
def AIR_ERROR_ID_BAD_MODE : Nat := 0x02

/-- Error ID: sensor resistance reached maximum. -/
def AIR_ERROR_ID_MAX_RESISTANCE : Nat := 0x03

/-- Error ID: heater current out of range. -/
def AIR_ERROR_ID_HEATER_FAULT : Nat := 0x04

/-- Error ID: heater supply voltage not applied correctly. -/
def AIR_ERROR_ID_HEATER_SUPPLY : Nat := 0x05

/-- Algorithm-result register address. -/
def AIR_ALG_RESULT_DATA_REG : Nat := 0x02

/-- Boot-application-start register address. -/
def AIR_BOOT_APP_START_REG : Nat := 0xF4

/-- C logical negation `!x` on an integer value: nonzero becomes 0, zero becomes 1.
The source applies it (rather than bitwise `~`) to `AIR_MODE_DRIVE_MODE_MASK`. -/
def lnot (x : Nat) : Nat := if x = 0 then 1 else 0

/-- One I2C transaction: a write of the given bytes to an address, or a read
of the given bytes from an address. -/
inductive Tx where
  | wr (addr : Nat) (data : List Nat)
  | rd (addr : Nat) (data : List Nat)
deriving DecidableEq

/-- The modelled I2C bus: the bytes the device will return on successive
reads, and the log of transactions performed so far. -/
structure Bus where
  script : List Nat
  trace : List Tx
deriving DecidableEq

/-- Model of `i2c.write(addr, data, n)`: logs the transaction and returns
status 0 (success). -/
def i2c_write (b : Bus) (addr : Nat) (data : List Nat) : Bus × Int :=
  ({ b with trace := b.trace ++ [Tx.wr addr data] }, 0)

/-- Model of `i2c.read(addr, buf, n)`: consumes the next `n` script bytes
(reduced mod 256, as they land in `char` buffers), logs the transaction and
returns status 0 (success). -/
def i2c_read (b : Bus) (addr : Nat) (n : Nat) : Bus × List Nat × Int :=
  let bytes := (b.script.take n).map (fun x => x % 256)
  ({ script := b.script.drop n, trace := b.trace ++ [Tx.rd addr bytes] }, bytes, 0)

/-- Decoded air sensor status register fields (`air_status_t`). -/
structure air_status_t where
  fw_mode : Nat
  app_valid : Nat
  error : Nat
  data_ready : Nat
  raw : Nat
deriving DecidableEq

/-- The pure field extraction performed by `air_read_status` on the raw
status byte (src/main.cpp lines 115 to 119). -/
def decode_status (raw_status : Nat) : air_status_t :=
  { fw_mode := (raw_status &&& AIR_STATUS_FW_MODE_MASK) >>> 7
  , app_valid := (raw_status &&& AIR_STATUS_APP_VALID_MASK) >>> 4
  , data_ready := (raw_status &&& AIR_STATUS_DATA_READY_MASK) >>> 3
  , error := raw_status &&& AIR_STATUS_ERROR_MASK
  , raw := raw_status }

/-- `air_read_status`: select the status register, read one byte, decode. -/
def air_read_status (b : Bus) : Except (String × Bus) (air_status_t × Bus) :=
  let (b1, r1) := i2c_write b AIR_ADDR [AIR_STATUS_REG]
  if r1 ≠ 0 then .error ("air: read_status: failed to select status register", b1)
  else
    let (b2, bytes, r2) := i2c_read b1 AIR_ADDR 1
    if r2 ≠ 0 then .error ("air: read_status: failed to read air status register", b2)
    else .ok (decode_status (bytes.getD 0 0), b2)

/-- `air_read_error_id`: select the error-ID register, read one byte. -/
def air_read_error_id (b : Bus) : Except (String × Bus) (Nat × Bus) :=
  let (b1, r1) := i2c_write b AIR_ADDR [AIR_ERROR_ID_REG]
  if r1 ≠ 0 then .error ("air: read_error_id: failed to select error id register", b1)
  else
    let (b2, bytes, r2) := i2c_read b1 AIR_ADDR 1
    if r2 ≠ 0 then .error ("air: read_error_id: failed to read error id", b2)
    else .ok (bytes.getD 0 0, b2)

/-- Enumerated sensor-reported fault, abstracting the cases of the switch
in `air_die` (src/main.cpp lines 149 to 171). -/
inductive ErrorId where
  | BadWrite
  | BadRead
  | BadMode
  | MaxResistance
  | HeaterFault
  | HeaterSupply
  | Unknown (raw : Nat)
deriving DecidableEq

/-- Which branch of the `air_die` switch a raw error-ID byte selects. -/
def decode_error_id (b : Nat) : ErrorId :=
  if b = AIR_ERROR_ID_BAD_WRITE then .BadWrite
  else if b = AIR_ERROR_ID_BAD_READ then .BadRead
  else if b = AIR_ERROR_ID_BAD_MODE then .BadMode
  else if b = AIR_ERROR_ID_MAX_RESISTANCE then .MaxResistance
  else if b = AIR_ERROR_ID_HEATER_FAULT then .HeaterFault
  else if b = AIR_ERROR_ID_HEATER_SUPPLY then .HeaterSupply
  else .Unknown b

/-- The human-readable message each `air_die` switch branch assigns to
`str_air_error_id`. -/
def str_air_error_id : ErrorId → String
  | .BadWrite => "a write occurred for an invalid register address"
  | .BadRead => "a read occurred for an invalid register address"
  | .BadMode => "the measurement drive mode is invalid"
  | .MaxResistance => "the resistance is set too high"
  | .HeaterFault => "the heater\x27s current was not in range"
  | .HeaterSupply => "the heater\x27s voltage is not being applied correctly"
  | .Unknown _ => "unknown error!"

/-- `air_die`: read status; if the error bit is set, read the error ID and
die with its message; otherwise return with no further effect. -/
def air_die (b : Bus) : Except (String × Bus) (Unit × Bus) :=
  match air_read_status b with
  | .error e => .error e
  | .ok (air_status, b1) =>
    if air_status.error ≠ 0 then
      match air_read_error_id b1 with
      | .error e => .error e
      | .ok (air_error_id, b2) =>
        .error ("air: error: " ++ str_air_error_id (decode_error_id air_error_id) ++ "\r\n", b2)
    else .ok ((), b1)

/-- `air_boot`: read status; if firmware mode is already the application,
return; if the application is not valid, die; otherwise write the
boot-application-start register. -/
def air_boot (b : Bus) : Except (String × Bus) (Unit × Bus) :=
  match air_read_status b with
  | .error e => .error e
  | .ok (air_status, b1) =>
    if air_status.fw_mode = AIR_STATUS_FW_MODE_APP then .ok ((), b1)
    else if air_status.app_valid = 0 then
      .error ("air: boot: cannot boot, invalid app on device", b1)
    else
      let (b2, r) := i2c_write b1 AIR_ADDR [AIR_BOOT_APP_START_REG]
      if r ≠ 0 then .error ("air: boot: failed to boot", b2) else .ok ((), b2)

/-- `air_read_mode`: select the mode register, read one byte, extract the
drive-mode field. -/
def air_read_mode (b : Bus) : Except (String × Bus) (Nat × Bus) :=
  let (b1, r1) := i2c_write b AIR_ADDR [AIR_MODE_REG]
  if r1 ≠ 0 then
    .error ("air: read_mode: failed to set drive mode to constant high freq", b1)
  else
    let (b2, bytes, r2) := i2c_read b1 AIR_ADDR 1
    if r2 ≠ 0 then .error ("air: read_mode: failed to read mode register", b2)
    else .ok ((bytes.getD 0 0 &&& AIR_MODE_DRIVE_MODE_MASK) >>> 4, b2)

/-- The byte `air_write_mode` writes back to the mode register, computed
from the current register byte and the requested drive mode exactly as in
src/main.cpp lines 239 to 242: `drive_mode << 4` truncated to a char,
combined with `measurement_mode & (!AIR_MODE_DRIVE_MODE_MASK)` where `!`
is C logical negation. -/
def encode_mode_write (measurement_mode drive_mode : Nat) : Nat :=
  let write_drive_mode := (drive_mode <<< 4) % 256
  let masked_mode := measurement_mode &&& lnot AIR_MODE_DRIVE_MODE_MASK
  (write_drive_mode ||| masked_mode) % 256

/-- `air_write_mode`: select the mode register, read the current byte,
combine it with the new drive mode via `encode_mode_write`, and write the
register address plus the new byte as one two-byte transaction. -/
def air_write_mode (b : Bus) (drive_mode : Nat) : Except (String × Bus) (Unit × Bus) :=
  let (b1, r1) := i2c_write b AIR_ADDR [AIR_MODE_REG]
  if r1 ≠ 0 then
    .error ("air: write_mode: failed to select measurement mode register", b1)
  else
    let (b2, bytes, r2) := i2c_read b1 AIR_ADDR 1
    if r2 ≠ 0 then
      .error ("air: write_mode: failed to read measurement mode register", b2)
    else
      let write_measurement_mode := encode_mode_write (bytes.getD 0 0) drive_mode
      let (b3, r3) := i2c_write b2 AIR_ADDR [AIR_MODE_REG, write_measurement_mode]
      if r3 ≠ 0 then
        .error ("air: write_mode: failed to write mode " ++ toString drive_mode, b3)
      else .ok ((), b3)

/-- Decoded algorithm result (`air_alg_result_t`). -/
structure air_alg_result_t where
  eco2 : Nat
  tvoc : Nat
deriving DecidableEq

/-- The pure unpacking performed by `air_read_alg_result` on the four raw
bytes (src/main.cpp lines 281 to 282); results land in `uint16_t` fields. -/
def decode_alg_result (buf : List Nat) : air_alg_result_t :=
  { eco2 := ((buf.getD 0 0 <<< 8) ||| buf.getD 1 0) % 65536
  , tvoc := ((buf.getD 2 0 <<< 8) ||| buf.getD 3 0) % 65536 }

/-- `air_read_alg_result`: select the algorithm-result register, read four
bytes, unpack them. -/
def air_read_alg_result (b : Bus) : Except (String × Bus) (air_alg_result_t × Bus) :=
  let (b1, r1) := i2c_write b AIR_ADDR [AIR_ALG_RESULT_DATA_REG]
  if r1 ≠ 0 then
    .error ("air: read_alg_result: failed to select alg result data register", b1)
  else
    let (b2, bytes, r2) := i2c_read b1 AIR_ADDR 4
    if r2 ≠ 0 then
      .error ("air: read_alg_result: failed to read alg result data register", b2)
    else .ok (decode_alg_result bytes, b2)

/-- The app-valid decode as the specification words it: the single bit 4,
mask `0x10`.  Compared against the source's widened mask `0x16`. -/
def app_valid_single_bit (b : Nat) : Nat := (b &&& 0x10) >>> 4

/-- Whether a transaction is a bus write. -/
def is_write : Tx → Bool
  | Tx.wr _ _ => true
  | Tx.rd _ _ => false

/-- Whether a transaction is a bus write selecting the
boot-application-start register. -/
def is_boot_write : Tx → Bool
  | Tx.wr _ data => data.getD 0 0 == AIR_BOOT_APP_START_REG
  | Tx.rd _ _ => false

/-- Number of bus writes in a trace. -/
def count_writes (t : List Tx) : Nat := t.countP is_write

/-- Number of boot-command writes in a trace. -/
def count_boot_writes (t : List Tx) : Nat := t.countP is_boot_write

/-- The bus state at the end of an operation, successful or dying. -/
def final_bus {α : Type} : Except (String × Bus) (α × Bus) → Bus
  | .error (_, b) => b
  | .ok (_, b) => b

/-- A big-endian pair of bytes packed by shift-and-or equals its value as a
16-bit number. -/
theorem shiftLeft_or_byte_eq (hi lo : Nat) (hhi : hi < 256) (hlo : lo < 256) :
    ((hi <<< 8) ||| lo) % 65536 = 256 * hi + lo := by
  have hlo2 : lo < 2 ^ 8 := by exact hlo
  have h : hi <<< 8 = 2 ^ 8 * hi := by
    rw [Nat.shiftLeft_eq]
    ring
  rw [h, ← Nat.mul_add_lt_is_or hlo2 hi]
  have : 2 ^ 8 * hi + lo < 65536 := by omega
  omega

/-- C1: the byte written by the mode-write operation does not preserve the
bits of the current mode byte outside positions 4 to 6: at current byte
0x01 and drive mode 0x01 the code computes 0x10, dropping bit 0 (`~0x70`
on a byte is 0x8F). -/
theorem encode_mode_write_drops_low_bits :
    encode_mode_write 0x01 0x01 = 0x10 ∧
    encode_mode_write 0x01 0x01 &&& 0x8F ≠ 0x01 &&& 0x8F := by
  decide

/-- C9: for every current mode byte and every drive mode below 16, the byte
written back is exactly `drive_mode <<< 4`: the C logical negation of the
drive-mode mask is 0, so every bit of the current byte is cleared. -/
theorem encode_mode_write_blind (b d : Nat) (hd : d < 16) :
    encode_mode_write b d = d <<< 4 ∧ lnot AIR_MODE_DRIVE_MODE_MASK = 0 := by
  have h1 : lnot AIR_MODE_DRIVE_MODE_MASK = 0 := by decide
  refine ⟨?_, h1⟩
  unfold encode_mode_write
  rw [h1]
  simp only [Nat.and_zero, Nat.or_zero]
  have h2 : d <<< 4 = d * 16 := by
    rw [Nat.shiftLeft_eq]
  rw [h2]
  omega

/-- Witness for C9 at current byte 0xFF, drive mode 0x01. -/
theorem encode_mode_write_blind_witness :
    encode_mode_write 0xFF 0x01 = 0x01 <<< 4 ∧ lnot AIR_MODE_DRIVE_MODE_MASK = 0 :=
  encode_mode_write_blind 0xFF 0x01 (by decide)

/-- C2: the algorithm-result decode is big-endian on both 16-bit fields,
and on bytes 0x01 0x90 0x00 0x64 yields eco2 400 and tvoc 100. -/
theorem decode_alg_result_big_endian (b0 b1 b2 b3 : Nat)
    (h0 : b0 < 256) (h1 : b1 < 256) (h2 : b2 < 256) (h3 : b3 < 256) :
    (decode_alg_result [b0, b1, b2, b3]).eco2 = 256 * b0 + b1 ∧
    (decode_alg_result [b0, b1, b2, b3]).tvoc = 256 * b2 + b3 ∧
    (decode_alg_result [0x01, 0x90, 0x00, 0x64]).eco2 = 400 ∧
    (decode_alg_result [0x01, 0x90, 0x00, 0x64]).tvoc = 100 := by
  refine ⟨?_, ?_, by decide, by decide⟩
  · show ((b0 <<< 8) ||| b1) % 65536 = 256 * b0 + b1
    exact shiftLeft_or_byte_eq b0 b1 h0 h1
  · show ((b2 <<< 8) ||| b3) % 65536 = 256 * b2 + b3
    exact shiftLeft_or_byte_eq b2 b3 h2 h3

/-- Witness for C2 at the bytes 0x01 0x90 0x00 0x64. -/
theorem decode_alg_result_big_endian_witness :
    (decode_alg_result [0x01, 0x90, 0x00, 0x64]).eco2 = 256 * 0x01 + 0x90 ∧
    (decode_alg_result [0x01, 0x90, 0x00, 0x64]).tvoc = 256 * 0x00 + 0x64 ∧
    (decode_alg_result [0x01, 0x90, 0x00, 0x64]).eco2 = 400 ∧
    (decode_alg_result [0x01, 0x90, 0x00, 0x64]).tvoc = 100 :=
  decode_alg_result_big_endian 0x01 0x90 0x00 0x64
    (by decide) (by decide) (by decide) (by decide)

set_option maxRecDepth 4096 in
/-- C4: for every status byte, the decode extracts firmware mode from bit
7, app-valid from bit 4, data-ready from bit 3 and error from bit 0, and
retains the raw byte. -/
theorem decode_status_bit_fields : ∀ b, b < 256 →
    (decode_status b).fw_mode = b / 2 ^ 7 % 2 ∧
    (decode_status b).app_valid = b / 2 ^ 4 % 2 ∧
    (decode_status b).data_ready = b / 2 ^ 3 % 2 ∧
    (decode_status b).error = b % 2 ∧
    (decode_status b).raw = b := by
  decide

/-- Witness for C4 at status byte 0x99. -/
theorem decode_status_bit_fields_witness :
    (decode_status 0x99).fw_mode = 0x99 / 2 ^ 7 % 2 ∧
    (decode_status 0x99).app_valid = 0x99 / 2 ^ 4 % 2 ∧
    (decode_status 0x99).data_ready = 0x99 / 2 ^ 3 % 2 ∧
    (decode_status 0x99).error = 0x99 % 2 ∧
    (decode_status 0x99).raw = 0x99 :=
  decode_status_bit_fields 0x99 (by decide)

set_option maxRecDepth 4096 in
/-- C10: on every status byte the widened app-valid mask 0x16 decodes to
the same value as the single-bit mask 0x10, and every decoded field is 0
or 1. -/
theorem app_valid_mask_equivalent : ∀ b, b < 256 →
    (b &&& AIR_STATUS_APP_VALID_MASK) >>> 4 = app_valid_single_bit b ∧
    (decode_status b).app_valid = app_valid_single_bit b ∧
    ((decode_status b).fw_mode = 0 ∨ (decode_status b).fw_mode = 1) ∧
    ((decode_status b).app_valid = 0 ∨ (decode_status b).app_valid = 1) ∧
    ((decode_status b).data_ready = 0 ∨ (decode_status b).data_ready = 1) ∧
    ((decode_status b).error = 0 ∨ (decode_status b).error = 1) := by
  decide

/-- Witness for C10 at status byte 0xFF. -/
theorem app_valid_mask_equivalent_witness :
    (0xFF &&& AIR_STATUS_APP_VALID_MASK) >>> 4 = app_valid_single_bit 0xFF ∧
    (decode_status 0xFF).app_valid = app_valid_single_bit 0xFF ∧
    ((decode_status 0xFF).fw_mode = 0 ∨ (decode_status 0xFF).fw_mode = 1) ∧
    ((decode_status 0xFF).app_valid = 0 ∨ (decode_status 0xFF).app_valid = 1) ∧
    ((decode_status 0xFF).data_ready = 0 ∨ (decode_status 0xFF).data_ready = 1) ∧
    ((decode_status 0xFF).error = 0 ∨ (decode_status 0xFF).error = 1) :=
  app_valid_mask_equivalent 0xFF (by decide)

/-- C6: the error-ID decode maps the raw bytes 0 to 5 to the six
enumerated faults and every other value to Unknown of the raw byte; in
particular 0x03 gives MaxResistance and 0xFF gives Unknown 0xFF. -/
theorem decode_error_id_cases :
    decode_error_id 0 = ErrorId.BadWrite ∧
    decode_error_id 1 = ErrorId.BadRead ∧
    decode_error_id 2 = ErrorId.BadMode ∧
    decode_error_id 3 = ErrorId.MaxResistance ∧
    decode_error_id 4 = ErrorId.HeaterFault ∧
    decode_error_id 5 = ErrorId.HeaterSupply ∧
    (∀ b, 5 < b → decode_error_id b = ErrorId.Unknown b) ∧
    decode_error_id 0x03 = ErrorId.MaxResistance ∧
    decode_error_id 0xFF = ErrorId.Unknown 0xFF := by
  refine ⟨by decide, by decide, by decide, by decide, by decide, by decide, ?_, by decide, by decide⟩
  intro b hb
  unfold decode_error_id AIR_ERROR_ID_BAD_WRITE AIR_ERROR_ID_BAD_READ AIR_ERROR_ID_BAD_MODE AIR_ERROR_ID_MAX_RESISTANCE AIR_ERROR_ID_HEATER_FAULT AIR_ERROR_ID_HEATER_SUPPLY
  rw [if_neg (by omega), if_neg (by omega), if_neg (by omega), if_neg (by omega),
    if_neg (by omega), if_neg (by omega)]

/-- Witness for C6, instantiating its universally quantified conjunct at
the raw byte 0xFE. -/
theorem decode_error_id_cases_witness :
    decode_error_id 0xFE = ErrorId.Unknown 0xFE :=
  decode_error_id_cases.2.2.2.2.2.2.1 0xFE (by decide)

/-- Evaluation of a status read: it always succeeds under the modelled
transport, decodes the next script byte, and appends exactly the
register-select write and the one-byte read to the trace. -/
theorem air_read_status_cons (raw : Nat) (rest : List Nat) (tr : List Tx) :
    air_read_status ⟨raw :: rest, tr⟩ =
      .ok (decode_status (raw % 256),
        ⟨rest, tr ++ [Tx.wr AIR_ADDR [AIR_STATUS_REG], Tx.rd AIR_ADDR [raw % 256]]⟩) := by
  simp [air_read_status, i2c_write, i2c_read]

/-- Evaluation of a status read on an arbitrary bus state. -/
theorem air_read_status_general (b : Bus) :
    air_read_status b =
      .ok (decode_status (((b.script.take 1).map (fun x => x % 256)).getD 0 0),
        ⟨b.script.drop 1,
         b.trace ++ [Tx.wr AIR_ADDR [AIR_STATUS_REG],
           Tx.rd AIR_ADDR ((b.script.take 1).map (fun x => x % 256))]⟩) := by
  simp [air_read_status, i2c_write, i2c_read]

/-- Evaluation of an error-ID read: it always succeeds under the modelled
transport, returns the next script byte, and appends exactly the
register-select write and the one-byte read to the trace. -/
theorem air_read_error_id_cons (eid : Nat) (rest : List Nat) (tr : List Tx) :
    air_read_error_id ⟨eid :: rest, tr⟩ =
      .ok (eid % 256,
        ⟨rest, tr ++ [Tx.wr AIR_ADDR [AIR_ERROR_ID_REG], Tx.rd AIR_ADDR [eid % 256]]⟩) := by
  simp [air_read_error_id, i2c_write, i2c_read]

/-- Evaluation of an error-ID read on an arbitrary bus state. -/
theorem air_read_error_id_general (b : Bus) :
    air_read_error_id b =
      .ok (((b.script.take 1).map (fun x => x % 256)).getD 0 0,
        ⟨b.script.drop 1,
         b.trace ++ [Tx.wr AIR_ADDR [AIR_ERROR_ID_REG],
           Tx.rd AIR_ADDR ((b.script.take 1).map (fun x => x % 256))]⟩) := by
  simp [air_read_error_id, i2c_write, i2c_read]

/-- C5 amended: when the status read at the start of `air_boot` reports
firmware mode Application, the boot returns success having performed
exactly the status register-select write and read: one bus write in total
(the select) and in particular no boot-command write. -/
theorem air_boot_idempotent (raw : Nat) (rest : List Nat) (tr : List Tx)
    (hm : (decode_status (raw % 256)).fw_mode = AIR_STATUS_FW_MODE_APP) :
    air_boot ⟨raw :: rest, tr⟩ =
      .ok ((), ⟨rest, tr ++ [Tx.wr AIR_ADDR [AIR_STATUS_REG], Tx.rd AIR_ADDR [raw % 256]]⟩) ∧
    count_writes (tr ++ [Tx.wr AIR_ADDR [AIR_STATUS_REG], Tx.rd AIR_ADDR [raw % 256]]) =
      count_writes tr + 1 ∧
    count_boot_writes (tr ++ [Tx.wr AIR_ADDR [AIR_STATUS_REG], Tx.rd AIR_ADDR [raw % 256]]) =
      count_boot_writes tr := by
  refine ⟨?_, ?_, ?_⟩
  · simp [air_boot, air_read_status_cons, hm]
  · simp [count_writes, List.countP_append, List.countP_cons, is_write]
  · simp [count_boot_writes, List.countP_append, List.countP_cons, is_boot_write,
      AIR_STATUS_REG, AIR_BOOT_APP_START_REG]

/-- Witness for C5 at status byte 0x80 (firmware mode Application). -/
theorem air_boot_idempotent_witness :
    air_boot ⟨[0x80], []⟩ =
      .ok ((), ⟨[], [] ++ [Tx.wr AIR_ADDR [AIR_STATUS_REG], Tx.rd AIR_ADDR [0x80 % 256]]⟩) ∧
    count_writes ([] ++ [Tx.wr AIR_ADDR [AIR_STATUS_REG], Tx.rd AIR_ADDR [0x80 % 256]]) =
      count_writes [] + 1 ∧
    count_boot_writes ([] ++ [Tx.wr AIR_ADDR [AIR_STATUS_REG], Tx.rd AIR_ADDR [0x80 % 256]]) =
      count_boot_writes [] :=
  air_boot_idempotent 0x80 [] [] (by decide)

/-- Counterexample to C5 as stated: with status byte 0x80 (firmware mode
Application) the boot succeeds but its trace contains one bus write, the
status register-select, so it does not perform zero bus writes. -/
theorem air_boot_idempotent_still_selects :
    (decode_status 0x80).fw_mode = AIR_STATUS_FW_MODE_APP ∧
    air_boot ⟨[0x80], []⟩ =
      .ok ((), ⟨[], [Tx.wr AIR_ADDR [AIR_STATUS_REG], Tx.rd AIR_ADDR [0x80]]⟩) ∧
    count_writes [Tx.wr AIR_ADDR [AIR_STATUS_REG], Tx.rd AIR_ADDR [0x80]] = 1 :=
  ⟨by decide, rfl, by decide⟩

/-- C3 amended: when the status read at the start of `air_boot` reports
app-valid false and a firmware mode other than Application, the boot dies
with the invalid-application diagnostic and performs no boot-command
write. -/
theorem air_boot_invalid_app_fails (raw : Nat) (rest : List Nat) (tr : List Tx)
    (hv : (decode_status (raw % 256)).app_valid = 0)
    (hm : (decode_status (raw % 256)).fw_mode ≠ AIR_STATUS_FW_MODE_APP) :
    air_boot ⟨raw :: rest, tr⟩ =
      .error ("air: boot: cannot boot, invalid app on device",
        ⟨rest, tr ++ [Tx.wr AIR_ADDR [AIR_STATUS_REG], Tx.rd AIR_ADDR [raw % 256]]⟩) ∧
    count_boot_writes (tr ++ [Tx.wr AIR_ADDR [AIR_STATUS_REG], Tx.rd AIR_ADDR [raw % 256]]) =
      count_boot_writes tr := by
  constructor
  · simp [air_boot, air_read_status_cons, hm, hv]
  · simp [count_boot_writes, List.countP_append, List.countP_cons, is_boot_write,
      AIR_STATUS_REG, AIR_BOOT_APP_START_REG]

/-- Witness for C3 at status byte 0x00 (app-valid false, boot mode). -/
theorem air_boot_invalid_app_fails_witness :
    air_boot ⟨[0x00], []⟩ =
      .error ("air: boot: cannot boot, invalid app on device",
        ⟨[], [] ++ [Tx.wr AIR_ADDR [AIR_STATUS_REG], Tx.rd AIR_ADDR [0x00 % 256]]⟩) ∧
    count_boot_writes ([] ++ [Tx.wr AIR_ADDR [AIR_STATUS_REG], Tx.rd AIR_ADDR [0x00 % 256]]) =
      count_boot_writes [] :=
  air_boot_invalid_app_fails 0x00 [] [] (by decide) (by decide)

/-- Counterexample to C3 as stated: with status byte 0x80 the decoded
app-valid field is false, yet the boot returns success instead of failing
with the invalid-application diagnostic, because the firmware-mode check
returns first. -/
theorem air_boot_invalid_app_yet_ok :
    (decode_status 0x80).app_valid = 0 ∧
    air_boot ⟨[0x80], []⟩ =
      .ok ((), ⟨[], [Tx.wr AIR_ADDR [AIR_STATUS_REG], Tx.rd AIR_ADDR [0x80]]⟩) :=
  ⟨by decide, rfl⟩

/-- C7: `air_die` reads the status register; when the decoded error bit is
clear it succeeds having performed only the status select and read; when
the error bit is set it reads the error-ID register and dies with the
fixed message of the decoded error ID. -/
theorem air_die_fault_check (raw eid : Nat) (rest : List Nat) (tr : List Tx) :
    ((decode_status (raw % 256)).error = 0 →
      air_die ⟨raw :: rest, tr⟩ =
        .ok ((), ⟨rest, tr ++ [Tx.wr AIR_ADDR [AIR_STATUS_REG], Tx.rd AIR_ADDR [raw % 256]]⟩)) ∧
    ((decode_status (raw % 256)).error ≠ 0 →
      air_die ⟨raw :: eid :: rest, tr⟩ =
        .error ("air: error: " ++ str_air_error_id (decode_error_id (eid % 256)) ++ "\r\n",
          ⟨rest, tr ++ [Tx.wr AIR_ADDR [AIR_STATUS_REG], Tx.rd AIR_ADDR [raw % 256],
            Tx.wr AIR_ADDR [AIR_ERROR_ID_REG], Tx.rd AIR_ADDR [eid % 256]]⟩)) := by
  constructor
  · intro h
    simp [air_die, air_read_status_cons, h]
  · intro h
    simp [air_die, air_read_status_cons, air_read_error_id_cons, h]

/-- Witness for C7: a clean status byte 0x98 lets `air_die` return, and a
status byte 0x01 with error ID 0x04 makes it die with the heater-fault
message. -/
theorem air_die_fault_check_witness :
    air_die ⟨[0x98], []⟩ =
      .ok ((), ⟨[], [] ++ [Tx.wr AIR_ADDR [AIR_STATUS_REG], Tx.rd AIR_ADDR [0x98 % 256]]⟩) ∧
    air_die ⟨[0x01, 0x04], []⟩ =
      .error ("air: error: " ++ str_air_error_id (decode_error_id (0x04 % 256)) ++ "\r\n",
        ⟨[], [] ++ [Tx.wr AIR_ADDR [AIR_STATUS_REG], Tx.rd AIR_ADDR [0x01 % 256],
          Tx.wr AIR_ADDR [AIR_ERROR_ID_REG], Tx.rd AIR_ADDR [0x04 % 256]]⟩) :=
  ⟨(air_die_fault_check 0x98 0 [] []).1 (by decide),
   (air_die_fault_check 0x01 0x04 [] []).2 (by decide)⟩

/-- C8: across every operation of the driver, a boot-command write is
added to the trace only by `air_boot`, and only when the status it just
decoded has app-valid set and a firmware mode other than Application; no
other operation ever adds a boot-command write. -/
theorem boot_write_only_when_armed :
    (∀ raw rest tr,
      count_boot_writes (final_bus (air_boot ⟨raw :: rest, tr⟩)).trace ≠
          count_boot_writes tr →
        (decode_status (raw % 256)).app_valid ≠ 0 ∧
        (decode_status (raw % 256)).fw_mode ≠ AIR_STATUS_FW_MODE_APP) ∧
    (∀ b, count_boot_writes (final_bus (air_read_status b)).trace =
      count_boot_writes b.trace) ∧
    (∀ b, count_boot_writes (final_bus (air_read_error_id b)).trace =
      count_boot_writes b.trace) ∧
    (∀ b, count_boot_writes (final_bus (air_die b)).trace =
      count_boot_writes b.trace) ∧
    (∀ b, count_boot_writes (final_bus (air_read_mode b)).trace =
      count_boot_writes b.trace) ∧
    (∀ b d, count_boot_writes (final_bus (air_write_mode b d)).trace =
      count_boot_writes b.trace) ∧
    (∀ b, count_boot_writes (final_bus (air_read_alg_result b)).trace =
      count_boot_writes b.trace) := by
  refine ⟨?_, ?_, ?_, ?_, ?_, ?_, ?_⟩
  · intro raw rest tr h
    by_cases hm : (decode_status (raw % 256)).fw_mode = AIR_STATUS_FW_MODE_APP
    · exfalso
      apply h
      simp [air_boot, air_read_status_cons, hm, final_bus, count_boot_writes,
        List.countP_append, List.countP_cons, is_boot_write,
        AIR_STATUS_REG, AIR_BOOT_APP_START_REG]
    · by_cases hv : (decode_status (raw % 256)).app_valid = 0
      · exfalso
        apply h
        simp [air_boot, air_read_status_cons, hm, hv, final_bus, count_boot_writes,
          List.countP_append, List.countP_cons, is_boot_write,
          AIR_STATUS_REG, AIR_BOOT_APP_START_REG]
      · exact ⟨hv, hm⟩
  · intro b
    simp [air_read_status_general, final_bus, count_boot_writes,
      List.countP_append, List.countP_cons, is_boot_write,
      AIR_STATUS_REG, AIR_BOOT_APP_START_REG]
  · intro b
    simp [air_read_error_id_general, final_bus, count_boot_writes,
      List.countP_append, List.countP_cons, is_boot_write,
      AIR_ERROR_ID_REG, AIR_BOOT_APP_START_REG]
  · intro b
    obtain ⟨s, tr⟩ := b
    cases s with
    | nil =>
      simp [air_die, air_read_status, i2c_write, i2c_read, decode_status,
        AIR_STATUS_ERROR_MASK, final_bus, count_boot_writes, List.countP_append,
        List.countP_cons, is_boot_write, AIR_STATUS_REG, AIR_BOOT_APP_START_REG]
    | cons raw rest =>
      rw [air_die, air_read_status_cons]
      by_cases he : (decode_status (raw % 256)).error = 0
      · simp [he, final_bus, count_boot_writes, List.countP_append, List.countP_cons,
          is_boot_write, AIR_STATUS_REG, AIR_BOOT_APP_START_REG]
      · simp [he, air_read_error_id_general, final_bus, count_boot_writes,
          List.countP_append, List.countP_cons, is_boot_write, AIR_STATUS_REG,
          AIR_ERROR_ID_REG, AIR_BOOT_APP_START_REG]
  · intro b
    simp [air_read_mode, i2c_write, i2c_read, final_bus, count_boot_writes,
      List.countP_append, List.countP_cons, is_boot_write,
      AIR_MODE_REG, AIR_BOOT_APP_START_REG]
  · intro b d
    simp [air_write_mode, i2c_write, i2c_read, final_bus, count_boot_writes,
      List.countP_append, List.countP_cons, is_boot_write,
      AIR_MODE_REG, AIR_BOOT_APP_START_REG]
  · intro b
    simp [air_read_alg_result, i2c_write, i2c_read, final_bus, count_boot_writes,
      List.countP_append, List.countP_cons, is_boot_write,
      AIR_ALG_RESULT_DATA_REG, AIR_BOOT_APP_START_REG]

/-- Witness for C8: at status byte 0x10 (app-valid set, boot mode) the
boot performs the boot-command write, and the decoded status indeed has
app-valid set and firmware mode not Application. -/
theorem boot_write_only_when_armed_witness :
    (decode_status (0x10 % 256)).app_valid ≠ 0 ∧
    (decode_status (0x10 % 256)).fw_mode ≠ AIR_STATUS_FW_MODE_APP :=
  boot_write_only_when_armed.1 0x10 [] [] (by decide)
